import Mathlib

/-!
Shallow embedding of paddlenlp/prompt/prompt_model.py.

The module wraps a pretrained language model (plm) together with a template
and an optional verbalizer.  The plm, the template and the verbalizer are
external collaborators supplied by the framework; they are modelled as
structures whose behaviour is given by function fields.  Python dicts are
modelled as functions from keys to optional values (keyword-argument dicts
carry no observable ordering in this code).  Python exceptions are modelled
with Except String.  Tensors are modelled as a dtype together with a
two-dimensional integer payload; loss computations are recorded
symbolically, since the numeric kernels live outside this module.
-/

/-- Paddle dtypes that the module inspects (labels.dtype comparisons). -/
inductive Dtype where
  | int32
  | int64
  | float32
  | float64
deriving DecidableEq, Repr

/-- A tensor: dtype plus a two-dimensional payload.  Only the row structure
is ever observed by this module (row 0 length in the generation padding). -/
structure Tensor where
  dtype : Dtype
  data : List (List Int)
deriving DecidableEq, Repr

/-- A framework parameter; stop_gradient mirrors the paddle attribute. -/
structure Param where
  pid : Nat
  stop_gradient : Bool
deriving DecidableEq, Repr

/-- Values stored in keyword-argument dictionaries. -/
inductive Value where
  | none
  | bool (b : Bool)
  | int (n : Int)
  | tensor (t : Tensor)
  | pkvList (kvs : List (Tensor × Tensor))
  | cacheList (kvs : List (Tensor × Tensor))
deriving DecidableEq, Repr

/-- Python None lifted from an optional tensor argument. -/
def Value.ofOpt : Option Tensor → Value
  | Option.none => Value.none
  | Option.some t => Value.tensor t

/-- Python truthiness for the values above (used for return_hidden_states). -/
def Value.truthy : Value → Bool
  | Value.none => false
  | Value.bool b => b
  | Value.int n => n != 0
  | Value.tensor _ => true
  | Value.pkvList l => !l.isEmpty
  | Value.cacheList l => !l.isEmpty

/-- A Python dict of keyword arguments, as a finite partial map. -/
def Dict : Type := String → Option Value

/-- The empty dict. -/
def Dict.empty : Dict := fun _ => Option.none

/-- Dict update, d[k] = v. -/
def Dict.set (d : Dict) (k : String) (v : Value) : Dict :=
  fun q => if q = k then Option.some v else d q

/-- Python dict merge, the two-star splat: keys of b override keys of a. -/
def Dict.merge (a b : Dict) : Dict :=
  fun q => match b q with
    | Option.some v => Option.some v
    | Option.none => a q

/-- Keep only the keys listed (the dict comprehension over forward_keys). -/
def Dict.filterKeys (d : Dict) (keys : List String) : Dict :=
  fun q => if keys.contains q then d q else Option.none

/-- Remove a key (dict.pop guarded by a membership test). -/
def Dict.pop (d : Dict) (k : String) : Dict :=
  fun q => if q = k then Option.none else d q

/-- Dict built from a literal list of entries, later entries overriding. -/
def Dict.ofList (l : List (String × Value)) : Dict :=
  l.foldl (fun d kv => Dict.set d kv.1 kv.2) Dict.empty

/-- Unguarded dict.pop, raising KeyError when the key is absent. -/
def Dict.popRequired (d : Dict) (k : String) : Except String Dict :=
  match d k with
  | Option.some _ => Except.ok (Dict.pop d k)
  | Option.none => Except.error ("KeyError: " ++ k)

/-- The with-return_dict outputs a pretrained model may produce, mirroring
the model_outputs dataclasses that forward dispatches on. -/
inductive ModelOutput where
  | maskedLM (logits : Tensor)
  | seqCls (logits : Tensor)
  | multiChoice (logits : Tensor)
  | causalLM (logits : Tensor) (past_key_values : List (Tensor × Tensor))
  | otherOutput (tag : String)
deriving DecidableEq, Repr

/-- Attribute access model_outputs.logits; every dataclass above except the
opaque one carries logits. -/
def ModelOutput.logitsOf : ModelOutput → Option Tensor
  | ModelOutput.maskedLM lg => Option.some lg
  | ModelOutput.seqCls lg => Option.some lg
  | ModelOutput.multiChoice lg => Option.some lg
  | ModelOutput.causalLM lg _ => Option.some lg
  | ModelOutput.otherOutput _ => Option.none

/-- Attribute access model_outputs.past_key_values. -/
def ModelOutput.pkvOf : ModelOutput → Option (List (Tensor × Tensor))
  | ModelOutput.causalLM _ kvs => Option.some kvs
  | _ => Option.none

/-- The external pretrained model.  sigKeys models the result of
signature(model.forward) from prompt_utils (not part of this file set).
call models model(kwargs, return_dict=True) and, in the generation
wrapper, model(kwargs, return_dict=True, use_cache=True); callNoKw models
the bare call model(input_ids); prepare_inputs models the method
prepare_inputs_for_generation(input_ids, cache=None, kwargs). -/
structure Plm where
  sigKeys : List String
  call : Dict → ModelOutput
  callNoKw : Tensor → ModelOutput
  num_labels : Option Int
  parameters : List Param
  prepare_inputs : Tensor → Dict → Dict

/-- The external verbalizer component. -/
structure Verbalizer where
  label_words : List String
  process_outputs : Tensor → Value → Tensor
  parameters : List Param

/-- The external template component.  isPrefixTemplate models the
isinstance(template, PrefixTemplate) test. -/
structure Template where
  process_batch : Dict → Dict
  parameters : List Param
  isPrefixTemplate : Bool
  process_model : Plm → Plm

/-- Symbolic record of which loss the wrapper builds.  ce records the
num_labels used to reshape logits to (-1, num_labels); ceShifted records
the generation loss, CrossEntropyLoss with ignore_index -100 applied to
the shifted logits against labels with the first column dropped (the
numeric slicing of the logits is abstracted). -/
inductive LossVal where
  | mse (logits labels : Tensor)
  | ce (logits : Tensor) (num_labels : Int) (labels : Tensor)
  | bce (logits labels : Tensor)
  | ceShifted (logits shift_labels : Tensor)
deriving DecidableEq, Repr

/-- An element of a returned Python tuple. -/
inductive Item where
  | loss (l : LossVal)
  | tensor (t : Tensor)
deriving DecidableEq, Repr

/-- The possible results of the wrappers.  raw is the untouched pretrained
model output returned by the generation bypass. -/
inductive FwdOut where
  | tensor (t : Tensor)
  | tuple (items : List Item)
  | seqClsOutput (loss : Option LossVal) (logits hidden_states : Tensor)
  | causalLMOutput (loss : Option LossVal) (logits : Tensor)
      (past_key_values : List (Tensor × Tensor)) (hidden_states : Tensor)
  | raw (o : ModelOutput)
deriving DecidableEq, Repr

/-- Freezing loop of both constructors: set stop_gradient on every plm
parameter (freeze_dropout switches eval mode, which is not observable
here). -/
def freezeParameters (p : Plm) : Plm :=
  { p with parameters := p.parameters.map (fun q => { q with stop_gradient := true }) }

/-- State of a constructed PromptModelForSequenceClassification. -/
structure PromptModelForSequenceClassification where
  plm : Plm
  template : Template
  verbalizer : Option Verbalizer
  freeze_plm : Bool
  freeze_dropout : Bool
  forward_keys : List String

/-- Constructor of PromptModelForSequenceClassification (source lines 36
to 60): optionally freeze the plm, record signature(plm.forward), and for
a PrefixTemplate wrap the plm with process_model and accept
past_key_values. -/
def PromptModelForSequenceClassification.init (model : Plm) (template : Template)
    (verbalizer : Option Verbalizer) (freeze_plm : Bool) (freeze_dropout : Bool) :
    PromptModelForSequenceClassification :=
  let plm0 := if freeze_plm then freezeParameters model else model
  let fk := plm0.sigKeys
  if template.isPrefixTemplate then
    { plm := template.process_model plm0, template := template, verbalizer := verbalizer,
      freeze_plm := freeze_plm, freeze_dropout := freeze_dropout,
      forward_keys := fk ++ ["past_key_values"] }
  else
    { plm := plm0, template := template, verbalizer := verbalizer,
      freeze_plm := freeze_plm, freeze_dropout := freeze_dropout,
      forward_keys := fk }

/-- Source lines 77 to 86: the literal input dict of forward, with the
extra keyword arguments merged on top. -/
def baseInputDictSC (input_ids : Tensor)
    (token_type_ids position_ids attention_mask masked_positions soft_token_ids
     encoder_ids : Option Tensor) (kwargs : Dict) : Dict :=
  Dict.merge
    (Dict.ofList
      [("input_ids", Value.tensor input_ids),
       ("token_type_ids", Value.ofOpt token_type_ids),
       ("position_ids", Value.ofOpt position_ids),
       ("masked_positions", Value.ofOpt masked_positions),
       ("soft_token_ids", Value.ofOpt soft_token_ids),
       ("attention_mask", Value.ofOpt attention_mask),
       ("encoder_ids", Value.ofOpt encoder_ids)])
    kwargs

/-- Source lines 87 to 88: template.process_batch, then the caller kwargs
merged on top of its result. -/
def inputDictSC (m : PromptModelForSequenceClassification) (base : Dict) (kwargs : Dict) : Dict :=
  Dict.merge (m.template.process_batch base) kwargs

/-- Source lines 89 to 91: keep the keys in forward_keys and drop
masked_positions. -/
def modelInputsSC (m : PromptModelForSequenceClassification) (input_dict : Dict) : Dict :=
  Dict.pop (Dict.filterKeys input_dict m.forward_keys) "masked_positions"

/-- Source lines 93 to 106: dispatch on the type of model_outputs.  The
result triple is the task logits, the num_labels in scope, and the raw
model logits (reused later as hidden states).  A MaskedLMOutput without a
verbalizer, and any output type outside the three supported dataclasses,
raise. -/
def dispatchOutputsSC (verbalizer : Option Verbalizer) (plm_num_labels : Option Int)
    (model_outputs : ModelOutput) (input_dict : Dict) :
    Except String (Tensor × Option Int × Tensor) :=
  match model_outputs with
  | ModelOutput.maskedLM lg =>
    match verbalizer with
    | Option.some v =>
      match input_dict "masked_positions" with
      | Option.some mp =>
        Except.ok (v.process_outputs lg mp, Option.some (v.label_words.length : Int), lg)
      | Option.none => Except.error "KeyError: masked_positions"
    | Option.none => Except.error "Verbalizer is required when model uses the MaskedLM head"
  | ModelOutput.seqCls lg => Except.ok (lg, plm_num_labels, lg)
  | ModelOutput.multiChoice lg => Except.ok (lg, Option.some (-1), lg)
  | ModelOutput.causalLM _ _ => Except.error "Model type not support yet"
  | ModelOutput.otherOutput tag => Except.error ("Model type not support yet: " ++ tag)

/-- Source lines 108 to 118: the loss cascade.  num_labels == 1 gives MSE;
otherwise a num_labels of Python None makes the comparison num_labels > 0
raise; a positive num_labels with integer labels gives cross entropy over
logits reshaped to (-1, num_labels); every remaining case gives BCE with
logits. -/
def computeLossSC (logits : Tensor) (num_labels : Option Int) (labels : Tensor) :
    Except String LossVal :=
  match num_labels with
  | Option.none => Except.error "TypeError: NoneType comparison"
  | Option.some n =>
    if n = 1 then Except.ok (LossVal.mse logits labels)
    else if 0 < n ∧ (labels.dtype = Dtype.int64 ∨ labels.dtype = Dtype.int32) then
      Except.ok (LossVal.ce logits n labels)
    else Except.ok (LossVal.bce logits labels)

/-- Source lines 120 to 134: output shaping shared by the classification
wrapper: a tuple when a loss exists, the bare logits when the tuple would
have one element, a SequenceClassifierOutput when return_dict is set. -/
def shapeOutputSC (return_dict return_hidden_states : Bool)
    (loss : Option LossVal) (logits raw_logits : Tensor) : FwdOut :=
  if return_dict = false then
    let output : List Item :=
      if return_hidden_states then [Item.tensor logits, Item.tensor raw_logits]
      else [Item.tensor logits]
    match loss with
    | Option.some l => FwdOut.tuple (Item.loss l :: output)
    | Option.none =>
      if output.length = 1 then FwdOut.tensor logits else FwdOut.tuple output
  else FwdOut.seqClsOutput loss logits raw_logits

/-- Source lines 62 to 134: forward of the classification wrapper. -/
def PromptModelForSequenceClassification.forward
    (m : PromptModelForSequenceClassification) (input_ids : Tensor)
    (token_type_ids position_ids attention_mask masked_positions soft_token_ids
     encoder_ids labels : Option Tensor)
    (return_dict : Option Bool) (kwargs : Dict) : Except String FwdOut :=
  let rd := return_dict.getD false
  let rhs := Value.truthy ((kwargs "return_hidden_states").getD Value.none)
  let input_dict := inputDictSC m
    (baseInputDictSC input_ids token_type_ids position_ids attention_mask
      masked_positions soft_token_ids encoder_ids kwargs) kwargs
  let model_inputs := modelInputsSC m input_dict
  match dispatchOutputsSC m.verbalizer m.plm.num_labels (m.plm.call model_inputs) input_dict with
  | Except.error e => Except.error e
  | Except.ok (logits, num_labels, raw_logits) =>
    match labels with
    | Option.none => Except.ok (shapeOutputSC rd rhs Option.none logits raw_logits)
    | Option.some lab =>
      match computeLossSC logits num_labels lab with
      | Except.error e => Except.error e
      | Except.ok l => Except.ok (shapeOutputSC rd rhs (Option.some l) logits raw_logits)

/-- Source lines 136 to 143: the template parameters followed by the
verbalizer parameters when a verbalizer is present. -/
def PromptModelForSequenceClassification.prompt_parameters
    (m : PromptModelForSequenceClassification) : List Param :=
  m.template.parameters ++
    (match m.verbalizer with
     | Option.some v => v.parameters
     | Option.none => [])

/-- State of a constructed PromptModelForGeneration. -/
structure PromptModelForGeneration where
  plm : Plm
  template : Template
  freeze_plm : Bool
  freeze_dropout : Bool
  forward_keys : List String

/-- Constructor of PromptModelForGeneration (source lines 170 to 194):
optionally freeze the plm, record signature(plm.forward), raise TypeError
for any template that is not a PrefixTemplate, and otherwise wrap the plm
with process_model and accept past_key_values. -/
def PromptModelForGeneration.init (model : Plm) (template : Template)
    (freeze_plm : Bool) (freeze_dropout : Bool) :
    Except String PromptModelForGeneration :=
  let plm0 := if freeze_plm then freezeParameters model else model
  let fk := plm0.sigKeys
  if template.isPrefixTemplate then
    Except.ok
      { plm := template.process_model plm0, template := template,
        freeze_plm := freeze_plm, freeze_dropout := freeze_dropout,
        forward_keys := fk ++ ["past_key_values"] }
  else
    Except.error "TypeError: PromptModelForGeneration is not compatible with the given template"

/-- Source lines 213 to 221: the literal input dict of the generation
forward, with the extra keyword arguments merged on top.  At this point
soft_token_ids is known to be a tensor, since the None case returned
earlier. -/
def baseInputDictGen (input_ids : Tensor)
    (token_type_ids position_ids : Option Tensor) (soft_token_ids : Tensor)
    (encoder_ids labels : Option Tensor) (kwargs : Dict) : Dict :=
  Dict.merge
    (Dict.ofList
      [("input_ids", Value.tensor input_ids),
       ("token_type_ids", Value.ofOpt token_type_ids),
       ("position_ids", Value.ofOpt position_ids),
       ("soft_token_ids", Value.tensor soft_token_ids),
       ("encoder_ids", Value.ofOpt encoder_ids),
       ("labels", Value.ofOpt labels)])
    kwargs

/-- Source lines 222 to 223: template.process_batch, then the caller
kwargs merged on top of its result. -/
def inputDictGen (g : PromptModelForGeneration) (base : Dict) (kwargs : Dict) : Dict :=
  Dict.merge (g.template.process_batch base) kwargs

/-- Source lines 225 to 235 and 283 to 293: when the plm signature has a
cache argument, rebuild past_key_values pairs as MultiHeadAttention Cache
objects under the cache key and drop past_key_values.  Reading a missing
or ill-typed past_key_values entry raises. -/
def applyCacheConversion (forward_keys : List String) (model_inputs : Dict) :
    Except String Dict :=
  if forward_keys.contains "cache" then
    match model_inputs "past_key_values" with
    | Option.some (Value.pkvList kvs) =>
      Except.ok (Dict.pop (Dict.set model_inputs "cache" (Value.cacheList kvs)) "past_key_values")
    | Option.some _ => Except.error "TypeError: past_key_values is not a list of pairs"
    | Option.none => Except.error "KeyError: past_key_values"
  else Except.ok model_inputs

/-- Source lines 224 to 236: filter the input dict to forward_keys, apply
the cache conversion, then pop labels (an unguarded pop, raising KeyError
when labels did not survive the filter). -/
def modelInputsGen (g : PromptModelForGeneration) (input_dict : Dict) :
    Except String Dict :=
  match applyCacheConversion g.forward_keys (Dict.filterKeys input_dict g.forward_keys) with
  | Except.error e => Except.error e
  | Except.ok mi => Dict.popRequired mi "labels"

/-- Shifted labels of the generation loss, labels with the first column
dropped. -/
def shiftLabels (labels : Tensor) : Tensor :=
  { labels with data := labels.data.map (List.drop 1) }

/-- Source lines 249 to 264: output shaping of the generation wrapper.
The hidden-states slot reuses the logits, mirroring the source, and the
return_dict branch reads past_key_values off the model output (raising
when the output type has no such attribute). -/
def shapeOutputGen (return_dict return_hidden_states : Bool)
    (loss : Option LossVal) (logits : Tensor) (model_outputs : ModelOutput) :
    Except String FwdOut :=
  if return_dict = false then
    let output : List Item :=
      if return_hidden_states then [Item.tensor logits, Item.tensor logits]
      else [Item.tensor logits]
    match loss with
    | Option.some l => Except.ok (FwdOut.tuple (Item.loss l :: output))
    | Option.none =>
      Except.ok (if output.length = 1 then FwdOut.tensor logits else FwdOut.tuple output)
  else
    match model_outputs.pkvOf with
    | Option.some kvs => Except.ok (FwdOut.causalLMOutput loss logits kvs logits)
    | Option.none => Except.error "AttributeError: past_key_values"

/-- Source lines 196 to 264: forward of the generation wrapper.  With
soft_token_ids None the call short-circuits to the bare plm applied to
input_ids alone.  Otherwise the call of the plm stands for
plm(model_inputs, return_dict=True, use_cache=True). -/
def PromptModelForGeneration.forward (g : PromptModelForGeneration) (input_ids : Tensor)
    (token_type_ids position_ids soft_token_ids encoder_ids labels : Option Tensor)
    (return_dict : Option Bool) (kwargs : Dict) : Except String FwdOut :=
  let rd := return_dict.getD false
  match soft_token_ids with
  | Option.none => Except.ok (FwdOut.raw (g.plm.callNoKw input_ids))
  | Option.some st =>
    let rhs := Value.truthy ((kwargs "return_hidden_states").getD Value.none)
    let input_dict := inputDictGen g
      (baseInputDictGen input_ids token_type_ids position_ids st encoder_ids labels kwargs)
      kwargs
    match modelInputsGen g input_dict with
    | Except.error e => Except.error e
    | Except.ok model_inputs =>
      let model_outputs := g.plm.call model_inputs
      match model_outputs.logitsOf with
      | Option.none => Except.error "AttributeError: logits"
      | Option.some logits =>
        let loss := labels.map (fun lab => LossVal.ceShifted logits (shiftLabels lab))
        shapeOutputGen rd rhs loss logits model_outputs

/-- Source line 279: paddle.concat([soft, paddle.to_tensor([[0]])], axis=1).
The appended literal has one row, so the concat is only well shaped for a
batch of one row. -/
def concatColumn (soft : Tensor) : Except String Tensor :=
  if soft.data.length = 1 then
    Except.ok { soft with data := soft.data.map (fun row => row ++ [0]) }
  else Except.error "ValueError: concat batch dimension mismatch"

/-- Source lines 277 to 280: append a zero column len_dif times. -/
def padSoftTokenIds (soft : Tensor) : Nat → Except String Tensor
  | 0 => Except.ok soft
  | n + 1 =>
    match concatColumn soft with
    | Except.error e => Except.error e
    | Except.ok s2 => padSoftTokenIds s2 n

/-- Source lines 272 to 275: the base prepare_inputs_for_generation of the
plm applied with cache=None, then the prompt-derived entries
soft_token_ids, token_type_ids and encoder_ids injected from the step
kwargs. -/
def genModelKwargs (g : PromptModelForGeneration) (input_ids : Tensor) (kwargs : Dict) : Dict :=
  let mk0 := g.plm.prepare_inputs input_ids kwargs
  let mk1 := Dict.set mk0 "soft_token_ids" ((kwargs "soft_token_ids").getD Value.none)
  let mk2 := Dict.set mk1 "token_type_ids" ((kwargs "token_type_ids").getD Value.none)
  Dict.set mk2 "encoder_ids" ((kwargs "encoder_ids").getD Value.none)

/-- Source lines 271 to 297: the prepare_inputs_for_generation override
installed on the plm by generate.  It computes len_dif from row 0 of
token_type_ids and soft_token_ids (subscripting a Python None or an empty
tensor raises), right-pads soft_token_ids with zero columns, applies
template.process_batch, filters to forward_keys, converts the cache and
finally forces use_cache and return_dict. -/
def PromptModelForGeneration.prepare_inputs_for_generation
    (g : PromptModelForGeneration) (input_ids : Tensor) (kwargs : Dict) :
    Except String Dict :=
  let mk3 := genModelKwargs g input_ids kwargs
  match mk3 "token_type_ids", mk3 "soft_token_ids" with
  | Option.some (Value.tensor tt), Option.some (Value.tensor st) =>
    match tt.data, st.data with
    | ttRow :: _, stRow :: _ =>
      match padSoftTokenIds st (ttRow.length - stRow.length) with
      | Except.error e => Except.error e
      | Except.ok padded =>
        let mk4 := Dict.set mk3 "soft_token_ids" (Value.tensor padded)
        let input_dict := g.template.process_batch mk4
        match applyCacheConversion g.forward_keys (Dict.filterKeys input_dict g.forward_keys) with
        | Except.error e => Except.error e
        | Except.ok mi =>
          Except.ok (Dict.set (Dict.set mi "use_cache" (Value.bool true))
            "return_dict" (Value.bool true))
    | _, _ => Except.error "IndexError: row 0 of an empty tensor"
  | _, _ => Except.error "TypeError: subscript of a non-tensor"

/-- Spec-side restatement of the loss case split of claim C3, written from
the words of the spec: MSE when num_labels equals 1, cross entropy over
logits reshaped to (-1, num_labels) when num_labels is positive and the
labels dtype is integral, BCE with logits otherwise.  It is compared with
the loss the embedded forward produces. -/
def specLossSC (logits : Tensor) (n : Int) (labels : Tensor) : LossVal :=
  if n = 1 then LossVal.mse logits labels
  else if 0 < n ∧ (labels.dtype = Dtype.int64 ∨ labels.dtype = Dtype.int32) then
    LossVal.ce logits n labels
  else LossVal.bce logits labels

/-- Concrete logits tensor used by witnesses. -/
def tLogits : Tensor := { dtype := Dtype.float32, data := [[3, 4]] }

/-- Concrete input_ids tensor used by witnesses. -/
def tInput : Tensor := { dtype := Dtype.int64, data := [[7, 8]] }

/-- Concrete integer labels tensor used by witnesses. -/
def tLabInt : Tensor := { dtype := Dtype.int64, data := [[1]] }

/-- Concrete soft_token_ids tensor (one row, one column). -/
def tSoft : Tensor := { dtype := Dtype.int64, data := [[9]] }

/-- Concrete token_type_ids tensor (one row, three columns). -/
def tTok : Tensor := { dtype := Dtype.int64, data := [[1, 2, 3]] }

/-- A template whose process_batch is the identity; not a PrefixTemplate. -/
def idTemplate : Template :=
  { process_batch := fun d => d,
    parameters := [{ pid := 10, stop_gradient := false }],
    isPrefixTemplate := false,
    process_model := fun p => p }

/-- The identity template marked as a PrefixTemplate. -/
def prefixTemplate0 : Template := { idTemplate with isPrefixTemplate := true }

/-- A pretrained model returning a SequenceClassifierOutput. -/
def basePlm : Plm :=
  { sigKeys := ["input_ids", "token_type_ids", "labels"],
    call := fun _ => ModelOutput.seqCls tLogits,
    callNoKw := fun _ => ModelOutput.otherOutput "raw",
    num_labels := Option.some 3,
    parameters := [{ pid := 0, stop_gradient := false }],
    prepare_inputs := fun _ kwargs => kwargs }

/-- A verbalizer with two label words. -/
def verbalizer0 : Verbalizer :=
  { label_words := ["bad", "good"],
    process_outputs := fun lg _ => lg,
    parameters := [{ pid := 20, stop_gradient := false }] }

/-- A pretrained model returning a MaskedLMOutput. -/
def plmMasked : Plm := { basePlm with call := fun _ => ModelOutput.maskedLM tLogits }

/-- A pretrained model returning a MultipleChoiceModelOutput. -/
def plmMulti : Plm := { basePlm with call := fun _ => ModelOutput.multiChoice tLogits }

/-- A pretrained model returning an unsupported output type. -/
def plmOther : Plm :=
  { basePlm with call := fun _ => ModelOutput.otherOutput "BaseModelOutput" }

/-- A pretrained model returning a causal LM output with cache. -/
def plmCausal : Plm := { basePlm with call := fun _ => ModelOutput.causalLM tLogits [] }

/-- Classification wrapper around the sequence-classifier model. -/
def mSeq : PromptModelForSequenceClassification :=
  PromptModelForSequenceClassification.init basePlm idTemplate (Option.some verbalizer0) false false

/-- Classification wrapper around the masked LM with a verbalizer. -/
def mMask : PromptModelForSequenceClassification :=
  PromptModelForSequenceClassification.init plmMasked idTemplate (Option.some verbalizer0) false false

/-- Classification wrapper around the multiple-choice model. -/
def mMulti : PromptModelForSequenceClassification :=
  PromptModelForSequenceClassification.init plmMulti idTemplate Option.none false false

/-- Classification wrapper around the unsupported-output model. -/
def mOther : PromptModelForSequenceClassification :=
  PromptModelForSequenceClassification.init plmOther idTemplate Option.none false false

/-- Classification wrapper around the masked LM with no verbalizer. -/
def mNoVerb : PromptModelForSequenceClassification :=
  PromptModelForSequenceClassification.init plmMasked idTemplate Option.none false false

/-- A generation wrapper state used by witnesses. -/
def gGen : PromptModelForGeneration :=
  { plm := plmCausal, template := prefixTemplate0,
    freeze_plm := false, freeze_dropout := false,
    forward_keys := ["input_ids", "token_type_ids", "labels", "soft_token_ids", "past_key_values"] }

/-- Keyword dict requesting hidden states. -/
def kwRHS : Dict := Dict.set Dict.empty "return_hidden_states" (Value.bool true)

/-- Keyword dict of an incremental generation step. -/
def kwGen : Dict :=
  Dict.ofList [("token_type_ids", Value.tensor tTok), ("soft_token_ids", Value.tensor tSoft)]

/-- An assembled input dict used by the C2 witness. -/
def dictIn : Dict :=
  Dict.ofList [("input_ids", Value.tensor tInput), ("labels", Value.none), ("extra_key", Value.bool true)]

/-- Claim C9: if the generation forward is called with soft_token_ids equal
to None, it returns the raw result of the pretrained model applied to
input_ids alone, bypassing template processing, keyword filtering, loss
computation and output shaping entirely (the result does not depend on the
other arguments). -/
theorem C9_soft_none_bypass (g : PromptModelForGeneration) (input_ids : Tensor)
    (token_type_ids position_ids encoder_ids labels : Option Tensor)
    (return_dict : Option Bool) (kwargs : Dict) :
    g.forward input_ids token_type_ids position_ids Option.none encoder_ids labels
      return_dict kwargs = Except.ok (FwdOut.raw (g.plm.callNoKw input_ids)) := rfl

/-- Claim C8: constructing a PromptModelForGeneration with a template that
is not a PrefixTemplate raises a TypeError before the template is applied
to the model; with a PrefixTemplate, construction wraps the (optionally
frozen) model via template.process_model and appends past_key_values to
the accepted forward keys. -/
theorem C8_generation_template_check (model1 model2 : Plm) (template1 template2 : Template)
    (fp1 fd1 fp2 fd2 : Bool)
    (h1 : template1.isPrefixTemplate = false)
    (h2 : template2.isPrefixTemplate = true) :
    PromptModelForGeneration.init model1 template1 fp1 fd1 =
      Except.error "TypeError: PromptModelForGeneration is not compatible with the given template"
    ∧ PromptModelForGeneration.init model2 template2 fp2 fd2 =
      Except.ok
        { plm := template2.process_model (if fp2 then freezeParameters model2 else model2),
          template := template2, freeze_plm := fp2, freeze_dropout := fd2,
          forward_keys := model2.sigKeys ++ ["past_key_values"] } := by
  constructor
  · simp [PromptModelForGeneration.init, h1]
  · cases fp2 <;> simp [PromptModelForGeneration.init, h2, freezeParameters]

/-- Witness for C8 at concrete inputs. -/
theorem C8_generation_template_check_witness :
    PromptModelForGeneration.init basePlm idTemplate true false =
      Except.error "TypeError: PromptModelForGeneration is not compatible with the given template"
    ∧ PromptModelForGeneration.init basePlm prefixTemplate0 false true =
      Except.ok
        { plm := prefixTemplate0.process_model basePlm,
          template := prefixTemplate0, freeze_plm := false, freeze_dropout := true,
          forward_keys := basePlm.sigKeys ++ ["past_key_values"] } :=
  C8_generation_template_check basePlm basePlm idTemplate prefixTemplate0 true false false true
    rfl rfl

/-- Claim C4: the verbalizer is optional at construction time, but a
MaskedLMOutput at forward time with a None verbalizer makes forward raise
instead of returning logits. -/
theorem C4_verbalizer_optional (model : Plm) (template : Template) (fp fd : Bool)
    (m : PromptModelForSequenceClassification) (lg : Tensor)
    (hv : m.verbalizer = Option.none)
    (hcall : ∀ d, m.plm.call d = ModelOutput.maskedLM lg)
    (input_ids : Tensor) (tt pos am mp st enc labels : Option Tensor)
    (rd : Option Bool) (kwargs : Dict) :
    (PromptModelForSequenceClassification.init model template Option.none fp fd).verbalizer
      = Option.none
    ∧ m.forward input_ids tt pos am mp st enc labels rd kwargs =
        Except.error "Verbalizer is required when model uses the MaskedLM head" := by
  constructor
  · cases hp : template.isPrefixTemplate <;>
      simp [PromptModelForSequenceClassification.init, hp]
  · simp [PromptModelForSequenceClassification.forward, hcall, dispatchOutputsSC, hv]

/-- Witness for C4 at concrete inputs. -/
theorem C4_verbalizer_optional_witness :
    (PromptModelForSequenceClassification.init basePlm idTemplate Option.none false false).verbalizer
      = Option.none
    ∧ mNoVerb.forward tInput Option.none Option.none Option.none Option.none Option.none
        Option.none Option.none Option.none Dict.empty =
        Except.error "Verbalizer is required when model uses the MaskedLM head" :=
  C4_verbalizer_optional basePlm idTemplate false false mNoVerb tLogits rfl (fun _ => rfl)
    tInput Option.none Option.none Option.none Option.none Option.none Option.none Option.none
    Option.none Dict.empty

/-- Claim C5: with freeze_plm set, construction marks every parameter of
the wrapped pretrained model with stop_gradient, while prompt_parameters
returns exactly the template parameters followed by the verbalizer
parameters (when present), untouched, hence still trainable when they were
trainable (stated for a template that is not a PrefixTemplate, where the
stored plm is the frozen model itself). -/
theorem C5_freeze_plm_prompt_parameters
    (model : Plm) (template : Template) (v : Verbalizer) (fd : Bool)
    (hpre : template.isPrefixTemplate = false)
    (htpl : template.parameters.all (fun p => !p.stop_gradient) = true)
    (hverb : v.parameters.all (fun p => !p.stop_gradient) = true) :
    ((PromptModelForSequenceClassification.init model template (Option.some v) true fd).plm.parameters.all
        (fun p => p.stop_gradient)) = true
    ∧ (PromptModelForSequenceClassification.init model template (Option.some v) true fd).prompt_parameters
        = template.parameters ++ v.parameters
    ∧ (PromptModelForSequenceClassification.init model template Option.none true fd).prompt_parameters
        = template.parameters
    ∧ ((PromptModelForSequenceClassification.init model template (Option.some v) true fd).prompt_parameters.all
        (fun p => !p.stop_gradient)) = true := by
  refine ⟨?_, ?_, ?_, ?_⟩
  · simp [PromptModelForSequenceClassification.init, hpre, freezeParameters, List.all_map,
      Function.comp]
  · simp [PromptModelForSequenceClassification.init, hpre,
      PromptModelForSequenceClassification.prompt_parameters]
  · simp [PromptModelForSequenceClassification.init, hpre,
      PromptModelForSequenceClassification.prompt_parameters]
  · simp [PromptModelForSequenceClassification.init, hpre,
      PromptModelForSequenceClassification.prompt_parameters, List.all_append, htpl, hverb]

/-- Witness for C5 at concrete inputs. -/
theorem C5_freeze_plm_prompt_parameters_witness :
    ((PromptModelForSequenceClassification.init basePlm idTemplate (Option.some verbalizer0) true false).plm.parameters.all
        (fun p => p.stop_gradient)) = true
    ∧ (PromptModelForSequenceClassification.init basePlm idTemplate (Option.some verbalizer0) true false).prompt_parameters
        = idTemplate.parameters ++ verbalizer0.parameters
    ∧ (PromptModelForSequenceClassification.init basePlm idTemplate Option.none true false).prompt_parameters
        = idTemplate.parameters
    ∧ ((PromptModelForSequenceClassification.init basePlm idTemplate (Option.some verbalizer0) true false).prompt_parameters.all
        (fun p => !p.stop_gradient)) = true :=
  C5_freeze_plm_prompt_parameters basePlm idTemplate verbalizer0 false rfl rfl rfl

/-- The loss cascade of forward agrees with the spec-side case split
whenever num_labels is an actual integer. -/
theorem computeLossSC_eq_specLossSC (logits : Tensor) (n : Int) (labels : Tensor) :
    computeLossSC logits (Option.some n) labels = Except.ok (specLossSC logits n labels) := by
  show (if n = 1 then Except.ok (LossVal.mse logits labels)
      else if 0 < n ∧ (labels.dtype = Dtype.int64 ∨ labels.dtype = Dtype.int32) then
        Except.ok (LossVal.ce logits n labels)
      else Except.ok (LossVal.bce logits labels)) = _
  unfold specLossSC
  rw [apply_ite Except.ok, apply_ite Except.ok]

/-- Claim C1: forward dispatches on the type of the pretrained model
output.  A MaskedLMOutput routes the model logits and the masked positions
through the verbalizer; SequenceClassifierOutput and
MultipleChoiceModelOutput use the logits field directly; any other output
type raises and produces neither logits nor loss (stated for the plain
return shape: no labels, no return_dict, no hidden-states request). -/
theorem C1_output_type_dispatch
    (m1 m2 m3 m4 : PromptModelForSequenceClassification) (v : Verbalizer)
    (lg : Tensor) (mp : Value) (tag : String)
    (input_ids : Tensor) (tt pos am mpos st enc labels4 : Option Tensor)
    (rd4 : Option Bool) (kwargs : Dict)
    (h1 : ∀ d, m1.plm.call d = ModelOutput.maskedLM lg)
    (hv : m1.verbalizer = Option.some v)
    (hmp : inputDictSC m1 (baseInputDictSC input_ids tt pos am mpos st enc kwargs) kwargs
      "masked_positions" = Option.some mp)
    (h2 : ∀ d, m2.plm.call d = ModelOutput.seqCls lg)
    (h3 : ∀ d, m3.plm.call d = ModelOutput.multiChoice lg)
    (h4 : ∀ d, m4.plm.call d = ModelOutput.otherOutput tag)
    (hk : kwargs "return_hidden_states" = Option.none) :
    m1.forward input_ids tt pos am mpos st enc Option.none Option.none kwargs =
      Except.ok (FwdOut.tensor (v.process_outputs lg mp))
    ∧ m2.forward input_ids tt pos am mpos st enc Option.none Option.none kwargs =
      Except.ok (FwdOut.tensor lg)
    ∧ m3.forward input_ids tt pos am mpos st enc Option.none Option.none kwargs =
      Except.ok (FwdOut.tensor lg)
    ∧ m4.forward input_ids tt pos am mpos st enc labels4 rd4 kwargs =
      Except.error ("Model type not support yet: " ++ tag) := by
  refine ⟨?_, ?_, ?_, ?_⟩
  · simp [PromptModelForSequenceClassification.forward, h1, hv, hmp, dispatchOutputsSC,
      shapeOutputSC, hk, Value.truthy]
  · simp [PromptModelForSequenceClassification.forward, h2, dispatchOutputsSC,
      shapeOutputSC, hk, Value.truthy]
  · simp [PromptModelForSequenceClassification.forward, h3, dispatchOutputsSC,
      shapeOutputSC, hk, Value.truthy]
  · simp [PromptModelForSequenceClassification.forward, h4, dispatchOutputsSC]

/-- Witness for C1 at concrete inputs.  The concrete masked positions
value is the entry the input dict holds under masked_positions. -/
theorem C1_output_type_dispatch_witness :
    mMask.forward tInput Option.none Option.none Option.none (Option.some tTok) Option.none
      Option.none Option.none Option.none Dict.empty =
      Except.ok (FwdOut.tensor (verbalizer0.process_outputs tLogits (Value.tensor tTok)))
    ∧ mSeq.forward tInput Option.none Option.none Option.none (Option.some tTok) Option.none
      Option.none Option.none Option.none Dict.empty =
      Except.ok (FwdOut.tensor tLogits)
    ∧ mMulti.forward tInput Option.none Option.none Option.none (Option.some tTok) Option.none
      Option.none Option.none Option.none Dict.empty =
      Except.ok (FwdOut.tensor tLogits)
    ∧ mOther.forward tInput Option.none Option.none Option.none (Option.some tTok) Option.none
      Option.none Option.none Option.none Dict.empty =
      Except.error ("Model type not support yet: " ++ "BaseModelOutput") :=
  C1_output_type_dispatch mMask mSeq mMulti mOther verbalizer0 tLogits (Value.tensor tTok)
    "BaseModelOutput" tInput Option.none Option.none Option.none (Option.some tTok) Option.none
    Option.none Option.none Option.none Dict.empty
    (fun _ => rfl) rfl rfl (fun _ => rfl) (fun _ => rfl) (fun _ => rfl) rfl

/-- Claim C3: with labels present the loss is selected task-appropriately
from the extracted logits: MSE when num_labels equals 1, cross entropy
over logits reshaped to (-1, num_labels) against flattened labels when
num_labels is positive and the labels dtype is int32 or int64, BCE with
logits otherwise; a MultipleChoiceModelOutput sets num_labels to -1 and
therefore always lands in the BCE case. -/
theorem C3_task_appropriate_loss
    (m1 m2 : PromptModelForSequenceClassification) (lg lab : Tensor) (n : Int)
    (h1 : ∀ d, m1.plm.call d = ModelOutput.seqCls lg)
    (hn : m1.plm.num_labels = Option.some n)
    (h2 : ∀ d, m2.plm.call d = ModelOutput.multiChoice lg)
    (input_ids : Tensor) (tt pos am mpos st enc : Option Tensor) (kwargs : Dict)
    (hk : kwargs "return_hidden_states" = Option.none) :
    m1.forward input_ids tt pos am mpos st enc (Option.some lab) Option.none kwargs =
      Except.ok (FwdOut.tuple [Item.loss (specLossSC lg n lab), Item.tensor lg])
    ∧ m2.forward input_ids tt pos am mpos st enc (Option.some lab) Option.none kwargs =
      Except.ok (FwdOut.tuple [Item.loss (LossVal.bce lg lab), Item.tensor lg]) := by
  constructor
  · simp [PromptModelForSequenceClassification.forward, h1, hn, dispatchOutputsSC,
      computeLossSC_eq_specLossSC, shapeOutputSC, hk, Value.truthy]
  · simp [PromptModelForSequenceClassification.forward, h2, dispatchOutputsSC,
      computeLossSC, shapeOutputSC, hk, Value.truthy]

/-- Witness for C3 at concrete inputs: three labels with integer dtype
give cross entropy, the multiple-choice path gives BCE. -/
theorem C3_task_appropriate_loss_witness :
    mSeq.forward tInput Option.none Option.none Option.none Option.none Option.none
      Option.none (Option.some tLabInt) Option.none Dict.empty =
      Except.ok (FwdOut.tuple [Item.loss (specLossSC tLogits 3 tLabInt), Item.tensor tLogits])
    ∧ mMulti.forward tInput Option.none Option.none Option.none Option.none Option.none
      Option.none (Option.some tLabInt) Option.none Dict.empty =
      Except.ok (FwdOut.tuple [Item.loss (LossVal.bce tLogits tLabInt), Item.tensor tLogits]) :=
  C3_task_appropriate_loss mSeq mMulti tLogits tLabInt 3 (fun _ => rfl) rfl (fun _ => rfl)
    tInput Option.none Option.none Option.none Option.none Option.none Option.none
    Dict.empty rfl

/-- Keys surviving the filter step are forward keys. -/
theorem Dict.filterKeys_isSome_mem (d : Dict) (keys : List String) (k : String)
    (h : ((Dict.filterKeys d keys) k).isSome = true) : keys.contains k = true := by
  by_cases hc : k ∈ keys
  · simpa using hc
  · simp [Dict.filterKeys, hc] at h

/-- A key surviving a pop was present before the pop. -/
theorem Dict.pop_isSome (d : Dict) (j k : String) (h : ((Dict.pop d j) k).isSome = true) :
    (d k).isSome = true := by
  by_cases hj : k = j
  · simp [Dict.pop, hj] at h
  · simpa [Dict.pop, hj] using h

/-- A key present after a set is the set key or was present before. -/
theorem Dict.set_isSome_cases (d : Dict) (j : String) (v : Value) (k : String)
    (h : ((Dict.set d j v) k).isSome = true) : k = j ∨ (d k).isSome = true := by
  by_cases hj : k = j
  · exact Or.inl hj
  · right; simpa [Dict.set, hj] using h

/-- A successful unguarded pop removes exactly the given key. -/
theorem popRequired_ok (d : Dict) (j : String) (mi : Dict)
    (h : Dict.popRequired d j = Except.ok mi) : mi = Dict.pop d j := by
  unfold Dict.popRequired at h
  rcases hd : d j with _ | v <;> rw [hd] at h
  · cases h
  · exact (Except.ok.inj h).symm

/-- Keys of the classification model inputs lie in forward_keys. -/
theorem modelInputsSC_key_mem (m : PromptModelForSequenceClassification) (d : Dict) (k : String)
    (h : ((modelInputsSC m d) k).isSome = true) : m.forward_keys.contains k = true := by
  simp only [modelInputsSC] at h
  exact Dict.filterKeys_isSome_mem _ _ _ (Dict.pop_isSome _ _ _ h)

/-- Keys outside forward_keys are dropped from the classification model
inputs. -/
theorem modelInputsSC_not_key (m : PromptModelForSequenceClassification) (d : Dict) (k : String)
    (h : m.forward_keys.contains k = false) : modelInputsSC m d k = Option.none := by
  have hmem : k ∉ m.forward_keys := by simpa using h
  by_cases hm : k = "masked_positions" <;>
    simp [modelInputsSC, Dict.pop, Dict.filterKeys, hm, hmem]

/-- Keys of the generation model inputs lie in forward_keys. -/
theorem modelInputsGen_key_mem (g : PromptModelForGeneration) (d : Dict) (mi : Dict) (k : String)
    (hmi : modelInputsGen g d = Except.ok mi) (hk : (mi k).isSome = true) :
    g.forward_keys.contains k = true := by
  unfold modelInputsGen at hmi
  revert hmi
  cases hac : applyCacheConversion g.forward_keys (Dict.filterKeys d g.forward_keys) with
  | error e => intro hmi; cases hmi
  | ok mi0 =>
    intro hmi
    have hmi2 := popRequired_ok _ _ _ hmi
    subst hmi2
    have hk2 : (mi0 k).isSome = true := Dict.pop_isSome _ _ _ hk
    unfold applyCacheConversion at hac
    by_cases hc : g.forward_keys.contains "cache" = true
    · rw [if_pos hc] at hac
      revert hac
      cases hpk : (Dict.filterKeys d g.forward_keys) "past_key_values" with
      | none => intro hac; cases hac
      | some v =>
        cases v with
        | pkvList kvs =>
          intro hac
          have hmi0 : mi0 = Dict.pop (Dict.set (Dict.filterKeys d g.forward_keys) "cache"
              (Value.cacheList kvs)) "past_key_values" := (Except.ok.inj hac).symm
          subst hmi0
          have hk3 := Dict.pop_isSome _ _ _ hk2
          rcases Dict.set_isSome_cases _ _ _ _ hk3 with hkc | hk4
          · rw [hkc]; exact hc
          · exact Dict.filterKeys_isSome_mem _ _ _ hk4
        | none => intro hac; cases hac
        | bool b => intro hac; cases hac
        | int n => intro hac; cases hac
        | tensor t => intro hac; cases hac
        | cacheList kvs => intro hac; cases hac
    · rw [if_neg hc] at hac
      have hmi0 : mi0 = Dict.filterKeys d g.forward_keys := (Except.ok.inj hac).symm
      subst hmi0
      exact Dict.filterKeys_isSome_mem _ _ _ hk2

/-- Claim C2: every keyword argument handed to the pretrained model
forward is a key of the signature recorded at construction (extended with
past_key_values for a PrefixTemplate), and keys of the assembled input
dict outside that signature are dropped before the call, in both
wrappers. -/
theorem C2_forward_signature_filter
    (model : Plm) (template : Template) (verbalizer : Option Verbalizer) (fp fd : Bool)
    (d d2 : Dict) (k1 k2 : String) (g : PromptModelForGeneration) (mi : Dict) (k3 : String)
    (h1 : ((modelInputsSC (PromptModelForSequenceClassification.init model template verbalizer fp fd) d) k1).isSome = true)
    (h2 : (PromptModelForSequenceClassification.init model template verbalizer fp fd).forward_keys.contains k2 = false)
    (hmi : modelInputsGen g d2 = Except.ok mi)
    (h3 : (mi k3).isSome = true) :
    (PromptModelForSequenceClassification.init model template verbalizer fp fd).forward_keys
      = model.sigKeys ++ (if template.isPrefixTemplate then ["past_key_values"] else [])
    ∧ (PromptModelForSequenceClassification.init model template verbalizer fp fd).forward_keys.contains k1 = true
    ∧ modelInputsSC (PromptModelForSequenceClassification.init model template verbalizer fp fd) d k2 = Option.none
    ∧ g.forward_keys.contains k3 = true := by
  refine ⟨?_, modelInputsSC_key_mem _ _ _ h1, modelInputsSC_not_key _ _ _ h2,
    modelInputsGen_key_mem _ _ _ _ hmi h3⟩
  cases hp : template.isPrefixTemplate <;> cases fp <;>
    simp [PromptModelForSequenceClassification.init, hp, freezeParameters]

/-- Witness for C2 at concrete inputs. -/
theorem C2_forward_signature_filter_witness :
    (PromptModelForSequenceClassification.init basePlm idTemplate (Option.some verbalizer0) false false).forward_keys
      = basePlm.sigKeys ++ (if idTemplate.isPrefixTemplate then ["past_key_values"] else [])
    ∧ (PromptModelForSequenceClassification.init basePlm idTemplate (Option.some verbalizer0) false false).forward_keys.contains "input_ids" = true
    ∧ modelInputsSC (PromptModelForSequenceClassification.init basePlm idTemplate (Option.some verbalizer0) false false) dictIn "extra_key" = Option.none
    ∧ gGen.forward_keys.contains "input_ids" = true :=
  C2_forward_signature_filter basePlm idTemplate (Option.some verbalizer0) false false
    dictIn dictIn "input_ids" "extra_key" gGen
    (Dict.pop (Dict.filterKeys dictIn gGen.forward_keys) "labels") "input_ids"
    rfl rfl rfl rfl

/-- Claim C7: in both wrappers the assembled input dict is passed through
template.process_batch before being filtered and handed to the pretrained
model, with the caller kwargs re-applied on top of the template output: a
forward key present in kwargs reaches the model inputs with the kwargs
value, and a forward key absent from kwargs reaches them with the value
process_batch produced.  The two dicts named here are exactly the dicts
forward passes to the plm call. -/
theorem C7_template_delegation_kwargs_override
    (m : PromptModelForSequenceClassification) (base kwargs : Dict) (k q : String) (v : Value)
    (hk1 : m.forward_keys.contains k = true) (hk2 : ¬k = "masked_positions")
    (hkv : kwargs k = Option.some v)
    (hq1 : m.forward_keys.contains q = true) (hq2 : ¬q = "masked_positions")
    (hqv : kwargs q = Option.none)
    (g : PromptModelForGeneration) (base2 kwargs2 : Dict) (k4 : String) (v4 : Value) (mi : Dict)
    (hg1 : g.forward_keys.contains k4 = true) (hg2 : ¬k4 = "labels")
    (hgv : kwargs2 k4 = Option.some v4)
    (hcache : g.forward_keys.contains "cache" = false)
    (hmi : modelInputsGen g (inputDictGen g base2 kwargs2) = Except.ok mi) :
    modelInputsSC m (inputDictSC m base kwargs) k = Option.some v
    ∧ modelInputsSC m (inputDictSC m base kwargs) q = (m.template.process_batch base) q
    ∧ mi k4 = Option.some v4 := by
  have hkm : k ∈ m.forward_keys := by simpa using hk1
  have hqm : q ∈ m.forward_keys := by simpa using hq1
  have hgm : k4 ∈ g.forward_keys := by simpa using hg1
  refine ⟨?_, ?_, ?_⟩
  · simp [modelInputsSC, Dict.pop, Dict.filterKeys, inputDictSC, Dict.merge, hk2, hkm, hkv]
  · simp [modelInputsSC, Dict.pop, Dict.filterKeys, inputDictSC, Dict.merge, hq2, hqm, hqv]
  · have hcf : ¬g.forward_keys.contains "cache" = true := by simpa using hcache
    unfold modelInputsGen applyCacheConversion at hmi
    rw [if_neg hcf] at hmi
    have hmi2 := popRequired_ok _ _ _ hmi
    subst hmi2
    simp [Dict.pop, hg2, Dict.filterKeys, hgm, inputDictGen, Dict.merge, hgv]

/-- Witness for C7 at concrete inputs. -/
theorem C7_template_delegation_kwargs_override_witness :
    modelInputsSC mSeq (inputDictSC mSeq dictIn kwGen) "token_type_ids"
      = Option.some (Value.tensor tTok)
    ∧ modelInputsSC mSeq (inputDictSC mSeq dictIn kwGen) "labels"
      = (mSeq.template.process_batch dictIn) "labels"
    ∧ (Dict.pop (Dict.filterKeys (inputDictGen gGen dictIn kwGen) gGen.forward_keys) "labels")
        "token_type_ids" = Option.some (Value.tensor tTok) :=
  C7_template_delegation_kwargs_override mSeq dictIn kwGen "token_type_ids" "labels"
    (Value.tensor tTok) rfl (by decide) rfl rfl (by decide) rfl
    gGen dictIn kwGen "token_type_ids" (Value.tensor tTok)
    (Dict.pop (Dict.filterKeys (inputDictGen gGen dictIn kwGen) gGen.forward_keys) "labels")
    rfl (by decide) rfl rfl rfl

/-- The padding loop on a single-row tensor appends exactly n zero
columns. -/
theorem padSoftTokenIds_single_row (dt : Dtype) (row : List Int) (n : Nat) :
    padSoftTokenIds { dtype := dt, data := [row] } n =
      Except.ok { dtype := dt, data := [row ++ List.replicate n 0] } := by
  induction n generalizing row with
  | zero => simp [padSoftTokenIds]
  | succ k ih =>
    show (match concatColumn { dtype := dt, data := [row] } with
      | Except.error e => Except.error e
      | Except.ok s2 => padSoftTokenIds s2 k) = _
    rw [show concatColumn { dtype := dt, data := [row] } =
        Except.ok { dtype := dt, data := [row ++ [0]] } from by simp [concatColumn]]
    show padSoftTokenIds { dtype := dt, data := [row ++ [0]] } k = _
    rw [ih (row ++ [0])]
    simp [List.replicate_succ, List.append_assoc]

/-- The cache conversion is the identity when the signature has no cache
argument. -/
theorem applyCacheConversion_no_cache (keys : List String) (mi : Dict)
    (h : keys.contains "cache" = false) : applyCacheConversion keys mi = Except.ok mi := by
  have hcf : ¬keys.contains "cache" = true := by simpa using h
  unfold applyCacheConversion
  rw [if_neg hcf]

/-- Claim C6: the prepare_inputs_for_generation override injects the
prompt-derived fields soft_token_ids, token_type_ids and encoder_ids from
the step kwargs into the model kwargs, right-pads soft_token_ids with zero
columns until its row length equals that of token_type_ids, and applies
template.process_batch before filtering to the forward signature (and then
forces use_cache and return_dict); stated for a one-row batch, a
soft_token_ids row no longer than the token_type_ids row, and a signature
without a cache argument. -/
theorem C6_prepare_inputs_for_generation_injection
    (g : PromptModelForGeneration) (input_ids : Tensor) (kwargs : Dict)
    (tdt sdt : Dtype) (ttRow stRow : List Int) (ttRest : List (List Int))
    (htt : kwargs "token_type_ids" =
      Option.some (Value.tensor { dtype := tdt, data := ttRow :: ttRest }))
    (hst : kwargs "soft_token_ids" =
      Option.some (Value.tensor { dtype := sdt, data := [stRow] }))
    (hlen : stRow.length ≤ ttRow.length)
    (hcache : g.forward_keys.contains "cache" = false) :
    (genModelKwargs g input_ids kwargs) "soft_token_ids" =
      Option.some (Value.tensor { dtype := sdt, data := [stRow] })
    ∧ (genModelKwargs g input_ids kwargs) "token_type_ids" =
      Option.some (Value.tensor { dtype := tdt, data := ttRow :: ttRest })
    ∧ (genModelKwargs g input_ids kwargs) "encoder_ids" =
      Option.some ((kwargs "encoder_ids").getD Value.none)
    ∧ padSoftTokenIds { dtype := sdt, data := [stRow] } (ttRow.length - stRow.length) =
      Except.ok { dtype := sdt, data := [stRow ++ List.replicate (ttRow.length - stRow.length) 0] }
    ∧ (stRow ++ List.replicate (ttRow.length - stRow.length) 0).length = ttRow.length
    ∧ g.prepare_inputs_for_generation input_ids kwargs =
      Except.ok (Dict.set (Dict.set (Dict.filterKeys
          (g.template.process_batch (Dict.set (genModelKwargs g input_ids kwargs)
            "soft_token_ids"
            (Value.tensor { dtype := sdt, data := [stRow ++ List.replicate (ttRow.length - stRow.length) 0] })))
          g.forward_keys) "use_cache" (Value.bool true)) "return_dict" (Value.bool true)) := by
  have e1 : (genModelKwargs g input_ids kwargs) "soft_token_ids" =
      Option.some (Value.tensor { dtype := sdt, data := [stRow] }) := by
    simp [genModelKwargs, Dict.set, hst]
  have e2 : (genModelKwargs g input_ids kwargs) "token_type_ids" =
      Option.some (Value.tensor { dtype := tdt, data := ttRow :: ttRest }) := by
    simp [genModelKwargs, Dict.set, htt]
  have e3 : (genModelKwargs g input_ids kwargs) "encoder_ids" =
      Option.some ((kwargs "encoder_ids").getD Value.none) := by
    simp [genModelKwargs, Dict.set]
  refine ⟨e1, e2, e3, padSoftTokenIds_single_row sdt stRow _, ?_, ?_⟩
  · simp
    omega
  · unfold PromptModelForGeneration.prepare_inputs_for_generation
    simp only [e1, e2, padSoftTokenIds_single_row, applyCacheConversion_no_cache, hcache]

/-- Witness for C6 at concrete inputs: a soft row of one column padded up
to the three columns of token_type_ids. -/
theorem C6_prepare_inputs_for_generation_injection_witness :
    (genModelKwargs gGen tInput kwGen) "soft_token_ids" = Option.some (Value.tensor tSoft)
    ∧ padSoftTokenIds { dtype := Dtype.int64, data := [[9]] } 2 =
      Except.ok { dtype := Dtype.int64, data := [[9, 0, 0]] }
    ∧ ([9, 0, 0] : List Int).length = ([1, 2, 3] : List Int).length := by
  have h := C6_prepare_inputs_for_generation_injection gGen tInput kwGen
    Dtype.int64 Dtype.int64 [1, 2, 3] [9] [] rfl rfl (by decide) rfl
  exact ⟨h.1, h.2.2.2.1, h.2.2.2.2.1⟩

/-- Claim C10: with return_dict False (the default) the result of either
wrapper forward contains a loss exactly when labels were given: with
labels, a tuple whose head is the loss followed by the logits (and the
model logits again when return_hidden_states is set); without labels and
without a hidden-states request, the bare logits tensor rather than a
one-element tuple (stated for the generation wrapper on its main path,
with soft_token_ids present). -/
theorem C10_loss_iff_labels
    (m1 : PromptModelForSequenceClassification) (g : PromptModelForGeneration)
    (lg lab st : Tensor) (n : Int) (pkv : List (Tensor × Tensor))
    (input_ids : Tensor) (tt pos am mpos enc : Option Tensor)
    (h1 : ∀ d, m1.plm.call d = ModelOutput.seqCls lg)
    (hn : m1.plm.num_labels = Option.some n)
    (h2 : ∀ d, g.plm.call d = ModelOutput.causalLM lg pkv)
    (hpb : ∀ d, g.template.process_batch d = d)
    (hfl : g.forward_keys.contains "labels" = true)
    (hcache : g.forward_keys.contains "cache" = false) :
    m1.forward input_ids tt pos am mpos (Option.some st) enc Option.none Option.none Dict.empty =
      Except.ok (FwdOut.tensor lg)
    ∧ m1.forward input_ids tt pos am mpos (Option.some st) enc Option.none Option.none kwRHS =
      Except.ok (FwdOut.tuple [Item.tensor lg, Item.tensor lg])
    ∧ m1.forward input_ids tt pos am mpos (Option.some st) enc (Option.some lab) Option.none Dict.empty =
      Except.ok (FwdOut.tuple [Item.loss (specLossSC lg n lab), Item.tensor lg])
    ∧ m1.forward input_ids tt pos am mpos (Option.some st) enc (Option.some lab) Option.none kwRHS =
      Except.ok (FwdOut.tuple [Item.loss (specLossSC lg n lab), Item.tensor lg, Item.tensor lg])
    ∧ g.forward input_ids tt pos (Option.some st) enc Option.none Option.none Dict.empty =
      Except.ok (FwdOut.tensor lg)
    ∧ g.forward input_ids tt pos (Option.some st) enc (Option.some lab) Option.none Dict.empty =
      Except.ok (FwdOut.tuple [Item.loss (LossVal.ceShifted lg (shiftLabels lab)), Item.tensor lg]) := by
  have hflm : "labels" ∈ g.forward_keys := by simpa using hfl
  have hcm : ¬"cache" ∈ g.forward_keys := by simpa using hcache
  refine ⟨?_, ?_, ?_, ?_, ?_, ?_⟩
  · simp [PromptModelForSequenceClassification.forward, h1, hn, dispatchOutputsSC,
      shapeOutputSC, Dict.empty, Value.truthy]
  · simp [PromptModelForSequenceClassification.forward, h1, hn, dispatchOutputsSC,
      shapeOutputSC, kwRHS, Dict.set, Dict.empty, Value.truthy]
  · simp [PromptModelForSequenceClassification.forward, h1, hn, dispatchOutputsSC,
      computeLossSC_eq_specLossSC, shapeOutputSC, Dict.empty, Value.truthy]
  · simp [PromptModelForSequenceClassification.forward, h1, hn, dispatchOutputsSC,
      computeLossSC_eq_specLossSC, shapeOutputSC, kwRHS, Dict.set, Dict.empty, Value.truthy]
  · simp [PromptModelForGeneration.forward, inputDictGen, baseInputDictGen, modelInputsGen,
      applyCacheConversion, hcm, Dict.popRequired, Dict.filterKeys, Dict.merge, Dict.ofList,
      Dict.set, Dict.empty, Dict.pop, hpb, h2, hflm, ModelOutput.logitsOf, shapeOutputGen,
      Value.truthy]
  · simp [PromptModelForGeneration.forward, inputDictGen, baseInputDictGen, modelInputsGen,
      applyCacheConversion, hcm, Dict.popRequired, Dict.filterKeys, Dict.merge, Dict.ofList,
      Dict.set, Dict.empty, Dict.pop, hpb, h2, hflm, ModelOutput.logitsOf, shapeOutputGen,
      Value.truthy, Value.ofOpt]

/-- Witness for C10 at concrete inputs. -/
theorem C10_loss_iff_labels_witness :
    mSeq.forward tInput Option.none Option.none Option.none Option.none (Option.some tSoft)
      Option.none Option.none Option.none Dict.empty = Except.ok (FwdOut.tensor tLogits)
    ∧ mSeq.forward tInput Option.none Option.none Option.none Option.none (Option.some tSoft)
      Option.none Option.none Option.none kwRHS =
      Except.ok (FwdOut.tuple [Item.tensor tLogits, Item.tensor tLogits])
    ∧ mSeq.forward tInput Option.none Option.none Option.none Option.none (Option.some tSoft)
      Option.none (Option.some tLabInt) Option.none Dict.empty =
      Except.ok (FwdOut.tuple [Item.loss (specLossSC tLogits 3 tLabInt), Item.tensor tLogits])
    ∧ mSeq.forward tInput Option.none Option.none Option.none Option.none (Option.some tSoft)
      Option.none (Option.some tLabInt) Option.none kwRHS =
      Except.ok (FwdOut.tuple [Item.loss (specLossSC tLogits 3 tLabInt), Item.tensor tLogits,
        Item.tensor tLogits])
    ∧ gGen.forward tInput Option.none Option.none (Option.some tSoft) Option.none Option.none
      Option.none Dict.empty = Except.ok (FwdOut.tensor tLogits)
    ∧ gGen.forward tInput Option.none Option.none (Option.some tSoft) Option.none
      (Option.some tLabInt) Option.none Dict.empty =
      Except.ok (FwdOut.tuple [Item.loss (LossVal.ceShifted tLogits (shiftLabels tLabInt)),
        Item.tensor tLogits]) :=
  C10_loss_iff_labels mSeq gGen tLogits tLabInt tSoft 3 [] tInput Option.none Option.none
    Option.none Option.none Option.none (fun _ => rfl) rfl (fun _ => rfl) (fun _ => rfl) rfl rfl
